import Mathlib

/-
Verification development for the `si_prefix` repository.

Modelling conventions, used throughout:
* Python floats are modelled by exact rationals (ℚ).  The library is
  documented as operating on standard doubles and "accepting their rounding
  characteristics"; all concrete inputs appearing below are exactly
  representable in the decimal sense and the float/rational gap plays no role
  in any statement.
* `int(math.log10 v)` (truncation toward zero of the base-10 logarithm) is
  modelled by the exact truncated logarithm `truncLog10`.
* Python's `round(x, n)` and `"%.nf"` formatting round half to even; this is
  `rhe` / `pyRound` / `fixedStr` below.
* Python exceptions are modelled by `Option`/`Except`: a function that can
  raise returns `none` / `.error`.
* Python's `str.format` is modelled by a small template AST (`TplPart`); the
  only aspect of a `{value:spec}` format spec that matters to the code under
  study is whether Python accepts it for a string argument, which is recorded
  as a boolean on the field.
-/

/- Batteries marks the arithmetic on `Rat` `@[irreducible]`.  The kernel
ignores reducibility attributes, but elaboration-time evaluation (`decide` on
concrete rationals) needs these definitions to unfold, so their default
reducibility is restored here.  This has no effect on soundness. -/
set_option allowUnsafeReducibility true
attribute [semireducible] Rat.add Rat.mul Rat.inv Rat.div Rat.sub Rat.neg

namespace SiSpec

/-! ### Decimal logarithm on naturals and rationals -/

/-- Fuel-driven decimal logarithm on ℕ (`nlog10Aux fuel n` = number of times
`n` can be divided by 10 before dropping below 10).  Structural in the fuel so
that the kernel can evaluate it on concrete inputs. -/
def nlog10Aux : ℕ → ℕ → ℕ
  | 0, _ => 0
  | fuel + 1, n => if n < 10 then 0 else nlog10Aux fuel (n / 10) + 1

/-- Decimal logarithm (floor) of a natural number; exact for `n < 10 ^ 64`,
which covers every number handled in this development. -/
def nlog10 (n : ℕ) : ℕ := nlog10Aux 64 n

/-- `⌊log10 q⌋` for a positive rational `q`, computed from the digit counts of
the numerator and denominator. -/
def floorLog10 (q : ℚ) : ℤ :=
  let k : ℤ := (nlog10 q.num.toNat : ℤ)
  let m : ℤ := (nlog10 q.den : ℤ)
  if (10 : ℚ) ^ (k - m) ≤ q then k - m else k - m - 1

/-- Model of Python's `int(math.log10 q)` for positive `q`: the base-10
logarithm truncated toward zero. -/
def truncLog10 (q : ℚ) : ℤ :=
  if 1 ≤ q then floorLog10 q else -floorLog10 q⁻¹

/-! ### Python rounding -/

/-- Round a rational to the nearest integer, ties to even — the rounding used
by Python's `round` and `%`-style float formatting. -/
def rhe (q : ℚ) : ℤ :=
  let f := ⌊q⌋
  if q - f < 1 / 2 then f
  else if 1 / 2 < q - f then f + 1
  else if f % 2 = 0 then f else f + 1

/-- Model of Python's `round(q, ndigits)` for `ndigits ≥ 0`. -/
def pyRound (q : ℚ) (ndigits : ℕ) : ℚ :=
  (rhe (q * 10 ^ ndigits) : ℚ) / 10 ^ ndigits

/-! ### The decomposer `_split` from `src/si_prefix/__init__.py` -/

/-- Embedding of `_split` from `src/si_prefix/__init__.py` *without* the final
`round` call, exposing the raw mantissa (used to state the rounding policy).
Mirrors the source: sign split, truncated log10, alignment to a multiple of 3
(floor division for positive exponents, the `(-e+3)//3*-3` form otherwise),
scaling, and the `>= 1000` renormalization — which the source performs before
rounding. -/
def si_split_raw (value : ℚ) : ℚ × ℤ :=
  if value = 0 then (0, 0)
  else
    let negative := value < 0
    let v := if negative then -value else value
    let e0 := truncLog10 v
    let e1 := if 0 < e0 then e0.fdiv 3 * 3 else (-e0 + 3).fdiv 3 * (-3)
    let v1 := v * (10 : ℚ) ^ (-e1)
    let p := if 1000 ≤ v1 then (v1 / 1000, e1 + 3) else (v1, e1)
    ((if negative then -p.1 else p.1), p.2)

/-- Embedding of `_split` from `src/si_prefix/__init__.py`: as `si_split_raw`,
with the mantissa rounded to `precision` fractional digits on return
(`round(value, precision)` in the source). -/
def si_split (value : ℚ) (precision : ℕ) : ℚ × ℤ :=
  if value = 0 then (0, 0)
  else
    let negative := value < 0
    let v := if negative then -value else value
    let e0 := truncLog10 v
    let e1 := if 0 < e0 then e0.fdiv 3 * 3 else (-e0 + 3).fdiv 3 * (-3)
    let v1 := v * (10 : ℚ) ^ (-e1)
    let p := if 1000 ≤ v1 then (v1 / 1000, e1 + 3) else (v1, e1)
    (pyRound (if negative then -p.1 else p.1) precision, p.2)

example : si_split ((4781:ℚ) + 123/1000) 2 = (478/100, 3) := by decide
example : si_split ((1:ℚ)/10^27) 1 = (1, -27) := by decide
example : si_split 0 3 = (0, 0) := by decide
example : si_split (-(4784:ℚ)/100000) 2 = (-4784/100, -3) := by decide

/-! ### Decimal rendering of numbers (Python `str` / `%`-formatting) -/

/-- Fuel-driven decimal rendering of a natural number (fuel 64 covers every
number in this development); mirrors Python's `str` on non-negative ints. -/
def natStrAux : ℕ → ℕ → String
  | 0, _ => ""
  | fuel + 1, n =>
    if n < 10 then String.mk [Char.ofNat (48 + n)]
    else natStrAux fuel (n / 10) ++ String.mk [Char.ofNat (48 + n % 10)]

/-- Decimal rendering of a natural number. -/
def natStr (n : ℕ) : String := natStrAux 64 n

/-- Model of Python's `str` on an int: decimal digits with a leading `-` for
negative numbers. -/
def intStr (z : ℤ) : String :=
  if z < 0 then "-" ++ natStr z.natAbs else natStr z.natAbs

/-- Left-pad a digit string with zeros to length `p`. -/
def padZeros (p : ℕ) (s : String) : String :=
  String.mk (List.replicate (p - s.length) '0') ++ s

/-- Model of Python's fixed-point formatting `f"{q:.{p}f}"` (and the legacy
`"%.pf" % q`): round half-to-even at `p` fractional digits and render; no
decimal point when `p = 0`. -/
def fixedStr (q : ℚ) (p : ℕ) : String :=
  let n := rhe (q * 10 ^ p)
  let a := n.natAbs
  (if n < 0 then "-" else "") ++ natStr (a / 10 ^ p) ++
    (if p = 0 then "" else "." ++ padZeros p (natStr (a % 10 ^ p)))

example : fixedStr (478/100) 2 = "4.78" := by decide
example : fixedStr 1 1 = "1.0" := by decide
example : fixedStr 1000 1 = "1000.0" := by decide
example : fixedStr (-(4784:ℚ)/100) 2 = "-47.84" := by decide
example : intStr (-27) = "-27" := by decide
example : intStr 27 = "27" := by decide

/-! ### The SI table from `src/si_prefix/__init__.py` -/

/-- Embedding of the `_SiPrefix` class of `src/si_prefix/__init__.py`: a short
(symbol) name, a long name and an exponent of 10. -/
structure SiPfx where
  short_name : String
  long_name : String
  exponent : ℤ
deriving DecidableEq

/-- Embedding of `_SiPrefix.get_e_string`: the string `f"e{exponent}"`. -/
def SiPfx.get_e_string (q : SiPfx) : String := "e" ++ intStr q.exponent

/-- Embedding of the `SI_PREFIXES` table of `src/si_prefix/__init__.py`. -/
def SI_PFXS : List SiPfx :=
  [⟨"y", "yocto", -24⟩, ⟨"z", "zepto", -21⟩, ⟨"a", "atto", -18⟩,
   ⟨"f", "femto", -15⟩, ⟨"p", "pico", -12⟩, ⟨"n", "nano", -9⟩,
   ⟨"µ", "micro", -6⟩, ⟨"m", "milli", -3⟩, ⟨"", "", 0⟩,
   ⟨"k", "kilo", 3⟩, ⟨"M", "mega", 6⟩, ⟨"G", "giga", 9⟩,
   ⟨"T", "tera", 12⟩, ⟨"P", "peta", 15⟩, ⟨"E", "exa", 18⟩,
   ⟨"Z", "zetta", 21⟩, ⟨"Y", "yotta", 24⟩]

/-- Embedding of `_prefix` from `src/si_prefix/__init__.py`: scan the table for
an entry whose exponent equals the argument; `ValueError` (modelled as `none`)
when there is none. -/
def pfx (exp_of_10 : ℤ) : Option String :=
  (SI_PFXS.find? fun q => exp_of_10 == q.exponent).map (·.short_name)

/-- Embedding of `SI_PREFIX_UNITS = "yzafpnµm kMGTPEZY"` from
`src/si_prefix.py` (the legacy single-module implementation). -/
def SI_PFX_UNITS : List Char :=
  ['y', 'z', 'a', 'f', 'p', 'n', 'µ', 'm', ' ', 'k', 'M', 'G', 'T', 'P', 'E', 'Z', 'Y']

/-- Embedding of the legacy lookup from `src/si_prefix.py` (function named
after the table entry it returns): floor-divide the exponent by 3 and index
into `SI_PREFIX_UNITS`; `ValueError` (modelled as `none`) when the level is
out of range. -/
def pfx_legacy (expof10 : ℤ) : Option Char :=
  let lvls : ℤ := (((SI_PFX_UNITS.length : ℤ)) - 1).fdiv 2
  let lvl : ℤ := expof10.fdiv 3
  if lvls < |lvl| then none
  else SI_PFX_UNITS.get? (lvl + lvls).toNat

example : pfx 3 = some "k" := by decide
example : pfx 0 = some "" := by decide
example : pfx_legacy (-24) = some 'y' := by decide

/-! ### Python `str.format` on the two templates, and `with_format` -/

/-- A piece of a Python format string as used by `with_format`: literal text,
a `{value}` field (with a flag recording whether Python accepts its format
spec for a string argument — `{value}` itself is accepted, `{value:d}` is
not), a `{prefix}` field, or an `{exp_of_10}` field. -/
inductive TplPart
  | lit (s : String)
  | fldValue (specOk : Bool)
  | fldPfx
  | fldExp
deriving DecidableEq

/-- Python exceptions raised by the modelled code. -/
inductive PyErr
  | valueErr
  | keyErr
  | typeErr
deriving DecidableEq

deriving instance DecidableEq for Except

/-- Model of `str.format` restricted to the fields `with_format` supplies:
`ps` is the `prefix` keyword argument (if given), `es` the `exp_of_10` one.
A field with an invalid format spec raises `ValueError`; a field whose
keyword is not supplied raises `KeyError`. -/
def renderTpl (tpl : List TplPart) (vs : String) (ps es : Option String) :
    Except PyErr String :=
  match tpl with
  | [] => .ok ""
  | t :: rest =>
    let head : Except PyErr String :=
      match t with
      | .lit s => .ok s
      | .fldValue ok => if ok then .ok vs else .error .valueErr
      | .fldPfx => match ps with | some s => .ok s | none => .error .keyErr
      | .fldExp => match es with | some s => .ok s | none => .error .keyErr
    match head with
    | .error e2 => .error e2
    | .ok hs =>
      match renderTpl rest vs ps es with
      | .error e2 => .error e2
      | .ok ts => .ok (hs ++ ts)

/-- The default `format_str` of `with_format`: `"{value} {prefix}"`. -/
def DFLT_FMT : List TplPart := [.fldValue true, .lit " ", .fldPfx]

/-- The default `exp_format_str` of `with_format`: `"{value}e{exp_of_10}"`. -/
def DFLT_EXP_FMT : List TplPart := [.fldValue true, .lit "e", .fldExp]

/-- Model of Python's `str.strip()`: drop whitespace from both ends. -/
def pyStrip (s : String) : String :=
  String.mk (((s.toList.dropWhile Char.isWhitespace).reverse.dropWhile
    Char.isWhitespace).reverse)

/-- Embedding of `with_format` from `src/si_prefix/__init__.py`: split the
value, render the mantissa at `precision` fractional digits, try the primary
template with the stripped symbol from `_prefix` (whose `ValueError` for an
out-of-range exponent surfaces inside the `try`); on `ValueError`, return the
bare value string when the exponent is 0, otherwise render the exponential
template with an explicit `+` sign for positive exponents. -/
def with_format (value : ℚ) (precision : ℕ)
    (format_str exp_format_str : List TplPart) : Except PyErr String :=
  let sv := si_split value precision
  let value_str := fixedStr sv.1 precision
  let attempt : Except PyErr String :=
    match pfx sv.2 with
    | none => .error .valueErr
    | some s => renderTpl format_str value_str (some (pyStrip s)) none
  match attempt with
  | .error .valueErr =>
    if sv.2 = 0 then .ok value_str
    else
      renderTpl exp_format_str value_str none
        (some ((if 0 < sv.2 then "+" else "") ++ intStr sv.2))
  | r => r

example : with_format ((4781:ℚ) + 123/1000) 2 DFLT_FMT DFLT_EXP_FMT = .ok "4.78 k" := by decide
example : with_format ((4781:ℚ)/100000) 2 DFLT_FMT DFLT_EXP_FMT = .ok "47.81 m" := by decide
example : with_format ((155051:ℚ) * 10^23) 2 DFLT_FMT DFLT_EXP_FMT = .ok "15.51e+27" := by decide
example : with_format ((126544:ℚ)/10^11) 2 DFLT_FMT DFLT_EXP_FMT = .ok "1.27 µ" := by decide

/-! ### Python `str.replace`, `float`, and `parse` from `src/si_prefix/__init__.py` -/

/-- `leadsWith pat l` is true when `pat` is an initial segment of `l`. -/
def leadsWith : List Char → List Char → Bool
  | [], _ => true
  | _ :: _, [] => false
  | a :: as, b :: bs => a == b && leadsWith as bs

/-- Leftmost, non-overlapping replacement of a non-empty pattern, fuel-driven
(fuel bounds the number of characters examined, so `s.length` suffices). -/
def pyReplaceAux (old new : List Char) : ℕ → List Char → List Char
  | 0, s => s
  | _ + 1, [] => []
  | fuel + 1, c :: rest =>
    if leadsWith old (c :: rest) then
      new ++ pyReplaceAux old new fuel (List.drop (old.length - 1) rest)
    else c :: pyReplaceAux old new fuel rest

/-- Model of Python's `str.replace(old, new)` — including the semantics for an
empty `old`, where Python inserts `new` before every character and at the end
(`"ab".replace("", "X") == "XaXbX"`). -/
def pyReplace (s old new : String) : String :=
  if old.isEmpty then
    new ++ String.join (s.toList.map fun c => String.mk [c] ++ new)
  else
    String.mk (pyReplaceAux old.toList new.toList s.toList.length s.toList)

example : pyReplace "abcabc" "bc" "X" = "aXaX" := by decide
example : pyReplace "ab" "" "X" = "XaXbX" := by decide
example : pyReplace "4.78 k" " " "" = "4.78k" := by decide

/-- Split off the leading run of decimal digits. -/
def spanDigits : List Char → List Char × List Char
  | [] => ([], [])
  | c :: r =>
    if c.isDigit then
      let t := spanDigits r
      (c :: t.1, t.2)
    else ([], c :: r)

/-- Read an optional leading sign, returning `-1`/`1` and the rest. -/
def readSign (l : List Char) : ℤ × List Char :=
  match l with
  | '+' :: r => (1, r)
  | '-' :: r => (-1, r)
  | _ => (1, l)

/-- Numeric value of a digit string. -/
def digitsToNat (l : List Char) : ℕ :=
  l.foldl (fun a c => 10 * a + (c.toNat - 48)) 0

/-- Strip whitespace from both ends of a character list. -/
def stripWs (l : List Char) : List Char :=
  ((l.dropWhile Char.isWhitespace).reverse.dropWhile Char.isWhitespace).reverse

/-- Core of the model of Python's `float(str)` builtin on an already stripped
string: optional sign, integer digits, optional `.` and fraction digits (at
least one digit in total), optional `e`/`E` exponent with optional sign and
mandatory digits, nothing else.  (The builtin additionally accepts
`inf`/`nan` spellings and digit-group underscores; none of those can reach
`float` in the code under study, and they are left out of the model.) -/
def pyFloatCore (l : List Char) : Option ℚ :=
  let s1 := readSign l
  let sg : ℚ := if s1.1 < 0 then -1 else 1
  let ipr := spanDigits s1.2
  let fpr : List Char × List Char :=
    match ipr.2 with
    | '.' :: r => spanDigits r
    | _ => ([], ipr.2)
  if ipr.1.isEmpty && fpr.1.isEmpty then none
  else
    let base : ℚ :=
      sg * ((digitsToNat ipr.1 : ℚ) + (digitsToNat fpr.1 : ℚ) / 10 ^ fpr.1.length)
    match fpr.2 with
    | [] => some base
    | c :: r =>
      if c = 'e' ∨ c = 'E' then
        let s2 := readSign r
        let epr := spanDigits s2.2
        if epr.1.isEmpty ∨ ¬ epr.2.isEmpty then none
        else some (base * (10 : ℚ) ^ (s2.1 * (digitsToNat epr.1 : ℤ)))
      else none

/-- Model of Python's `float(str)` builtin (see `pyFloatCore`). -/
def pyFloat (s : String) : Option ℚ := pyFloatCore (stripWs s.toList)

example : pyFloat "4780.0" = some 4780 := by decide
example : pyFloat "-47.84" = some (-(4784:ℚ)/100) := by decide
example : pyFloat "1." = some 1 := by decide
example : pyFloat ".5" = some (1/2) := by decide
example : pyFloat "." = none := by decide
example : pyFloat "e0" = none := by decide
example : pyFloat "4.78k" = none := by decide

/-- Embedding of `parse` from `src/si_prefix/__init__.py`: remove every space,
then for each table entry in order replace its short name by `e<exponent>`
(including the entry whose short name is the empty string), and run `float` on
the result; `ValueError` from `float` is modelled as `none`. -/
def parse (value : String) : Option ℚ :=
  let v1 := pyReplace value " " ""
  let v2 := SI_PFXS.foldl (fun s q => pyReplace s q.short_name q.get_e_string) v1
  pyFloat v2


/-! ### `si_prefix_expof10` and `si_prefix_scale` from `src/si_prefix.py` -/

/-- Model of Python's `str.index` on the legacy units string: index of the
first occurrence, `ValueError` (modelled as `none`) when absent. -/
def strIndex : List Char → Char → Option ℕ
  | [], _ => none
  | c :: rest, u => if c = u then some 0 else (strIndex rest u).map (· + 1)

/-- Embedding of the exponent-for-unit lookup of `src/si_prefix.py`
(`3 * (SI_PREFIX_UNITS.index(si_unit) - prefix_levels)` with
`prefix_levels = (len(SI_PREFIX_UNITS) - 1) // 2`). -/
def si_pfx_expof10 (si_unit : Char) : Option ℤ :=
  (strIndex SI_PFX_UNITS si_unit).map fun i =>
    3 * ((i : ℤ) - (((SI_PFX_UNITS.length : ℤ)) - 1).fdiv 2)

/-- Embedding of the scale-for-unit function of `src/si_prefix.py`: Python's
`10 ** e` yields an `int` only when `e ≥ 0`; for `e < 0` it yields a `float`,
which the `isinstance(ret_val, int)` guard rejects with `TypeError`.  A unit
character absent from the table propagates `ValueError` from `str.index`. -/
def si_pfx_scale (si_unit : Char) : Except PyErr ℤ :=
  match si_pfx_expof10 si_unit with
  | none => .error .valueErr
  | some e => if 0 ≤ e then .ok (10 ^ e.toNat) else .error .typeErr

example : si_pfx_expof10 'k' = some 3 := by decide
example : si_pfx_expof10 'µ' = some (-6) := by decide
example : si_pfx_scale 'k' = .ok 1000 := by decide
example : si_pfx_scale ' ' = .ok 1 := by decide
example : si_pfx_scale 'm' = .error .typeErr := by decide
example : si_pfx_scale 'x' = .error .valueErr := by decide

/-! ### Helper lemmas -/

/-- The table lookup `_prefix` succeeds exactly on the 17 multiples of 3 in
`[-24, 24]`. -/
lemma pfx_isSome_iff (e : ℤ) : (pfx e).isSome ↔ 3 ∣ e ∧ -24 ≤ e ∧ e ≤ 24 := by
  constructor
  · intro h
    rw [pfx, Option.isSome_map'] at h
    obtain ⟨x, hx, hpx⟩ := List.find?_isSome.mp h
    fin_cases hx <;> simp_all <;> omega
  · rintro ⟨⟨k, rfl⟩, h1, h2⟩
    have hk1 : -8 ≤ k := by omega
    have hk2 : k ≤ 8 := by omega
    interval_cases k <;> decide

/-- Failure form of `pfx_isSome_iff`. -/
lemma pfx_eq_none (e : ℤ) (h : e < -24 ∨ 24 < e) : pfx e = none := by
  rcases hpf : pfx e with _ | s
  · rfl
  · have : (pfx e).isSome := by rw [hpf]; rfl
    rw [pfx_isSome_iff] at this
    omega

/-- Round-half-to-even lands within half a unit of its argument. -/
lemma rhe_close (q : ℚ) : |(rhe q : ℚ) - q| ≤ 1 / 2 := by
  have h1 : (⌊q⌋ : ℚ) ≤ q := Int.floor_le q
  have h2 : q < ⌊q⌋ + 1 := Int.lt_floor_add_one q
  simp only [rhe]
  split_ifs <;> rw [abs_le] <;> constructor <;> push_cast <;> linarith

/-- `pyRound` lands within half an ulp (at `ndigits` fractional digits) of its
argument. -/
lemma pyRound_close (q : ℚ) (ndigits : ℕ) :
    |pyRound q ndigits - q| ≤ 1 / (2 * 10 ^ ndigits) := by
  have hp : (0 : ℚ) < 10 ^ ndigits := by positivity
  have h := rhe_close (q * 10 ^ ndigits)
  have heq : pyRound q ndigits - q
      = ((rhe (q * 10 ^ ndigits) : ℚ) - q * 10 ^ ndigits) / 10 ^ ndigits := by
    rw [pyRound, sub_div]
    congr 1
    rw [mul_div_assoc, div_self (ne_of_gt hp), mul_one]
  rw [heq, abs_div, abs_of_pos hp, div_le_iff₀ hp]
  have h2 : 1 / (2 * 10 ^ ndigits) * 10 ^ ndigits = (1 : ℚ) / 2 := by
    field_simp
    ring
  rw [h2]
  exact h

/-- `pyRound` returns an integer multiple of `10 ^ (-ndigits)`. -/
lemma pyRound_den (q : ℚ) (ndigits : ℕ) :
    ∃ z : ℤ, pyRound q ndigits = (z : ℚ) / 10 ^ ndigits :=
  ⟨rhe (q * 10 ^ ndigits), rfl⟩

/-- `si_split` is `si_split_raw` with the mantissa rounded on return. -/
lemma si_split_eq (value : ℚ) (precision : ℕ) :
    si_split value precision =
      (pyRound (si_split_raw value).1 precision, (si_split_raw value).2) := by
  unfold si_split si_split_raw
  split_ifs with h0
  · have : pyRound 0 precision = 0 := by
      unfold pyRound rhe
      norm_num
    rw [this]
  · rfl

/-- Scaling by `10 ^ (-e)` and back is the identity. -/
lemma scale_cancel (v : ℚ) (e : ℤ) : v * (10 : ℚ) ^ (-e) * 10 ^ e = v := by
  have h10 : (10 : ℚ) ≠ 0 := by norm_num
  rw [zpow_neg, mul_assoc, inv_mul_cancel₀ (zpow_ne_zero e h10), mul_one]

/-- Scaling by `10 ^ (-e)`, dividing by 1000 and multiplying by `10 ^ (e + 3)`
is the identity. -/
lemma scale_cancel_shift (v : ℚ) (e : ℤ) :
    v * (10 : ℚ) ^ (-e) / 1000 * 10 ^ (e + 3) = v := by
  have h10 : (10 : ℚ) ≠ 0 := by norm_num
  calc v * (10 : ℚ) ^ (-e) / 1000 * 10 ^ (e + 3)
      = v * (10 : ℚ) ^ (-e) * 10 ^ e * ((10 : ℚ) ^ (3 : ℤ) / 1000) := by
        rw [zpow_add₀ h10]; ring
    _ = v * ((10 : ℚ) ^ (3 : ℤ) / 1000) := by rw [scale_cancel]
    _ = v := by norm_num

/-- The raw decomposition is exact: mantissa times `10 ^ exponent` recovers
the value. -/
lemma si_split_raw_mul (value : ℚ) :
    (si_split_raw value).1 * (10 : ℚ) ^ (si_split_raw value).2 = value := by
  by_cases h0 : value = 0
  · simp [si_split_raw, h0]
  · simp only [si_split_raw, if_neg h0]
    split_ifs <;>
      first
        | (rw [neg_mul, scale_cancel_shift, neg_neg])
        | (rw [neg_mul, scale_cancel, neg_neg])
        | (rw [scale_cancel_shift])
        | (rw [scale_cancel])

lemma dvd_mul3_add3 (a : ℤ) : 3 ∣ a * 3 + 3 := ⟨a + 1, by ring⟩

lemma dvd_mul3 (a : ℤ) : 3 ∣ a * 3 := ⟨a, by ring⟩

lemma dvd_muln3_add3 (a : ℤ) : 3 ∣ a * (-3) + 3 := ⟨-a + 1, by ring⟩

lemma dvd_muln3 (a : ℤ) : 3 ∣ a * (-3) := ⟨-a, by ring⟩

/-- The exponent produced by the raw decomposition is a multiple of 3. -/
lemma si_split_raw_dvd (value : ℚ) : 3 ∣ (si_split_raw value).2 := by
  by_cases h0 : value = 0
  · simp [si_split_raw, h0]
  · simp only [si_split_raw, if_neg h0]
    split_ifs <;>
      first
        | exact dvd_mul3_add3 _
        | exact dvd_mul3 _
        | exact dvd_muln3_add3 _
        | exact dvd_muln3 _

/-- Rendering the default exponential template concatenates the value string,
`"e"` and the exponent string. -/
lemma renderTpl_exp (vs es : String) :
    renderTpl DFLT_EXP_FMT vs none (some es) = .ok (vs ++ "e" ++ es) := by
  show Except.ok (vs ++ ("e" ++ (es ++ ""))) = Except.ok (vs ++ "e" ++ es)
  rw [String.append_empty, String.append_assoc]

/-! ### The claims -/

/-- C1: the claimed round-trip `parse (format v p) ≈ v` fails on the code: the
formatter does produce `"4.78 k"` for `value = 4781.123`, `precision = 2`, but
`parse` raises `ValueError` on that string (and on every other input), because
the substitution loop replaces the empty short name of the zero-exponent table
entry, which inserts `"e0"` around every character before `float` is called. -/
theorem C1_roundtrip_broken :
    with_format ((4781 : ℚ) + 123/1000) 2 DFLT_FMT DFLT_EXP_FMT = .ok "4.78 k"
    ∧ parse "4.78 k" = none := by decide

/-- C2: the claim `parse "4.78 k" = 4780.0` (and generally that SI-suffixed
tokens parse to `number * 10 ^ exponent`) fails on the code: `parse` raises
`ValueError` on `"4.78 k"` and `"47.8 m"`; the third conjunct exhibits the
mangled string the substitution loop actually hands to `float`. -/
theorem C2_parse_si_broken :
    parse "4.78 k" = none ∧ parse "47.8 m" = none
    ∧ SI_PFXS.foldl (fun s q => pyReplace s q.short_name q.get_e_string) "4.78k"
        = "e04e0.e07e08e0e3e0" := by decide

/-- C3: the claimed boundary renormalization fails on the code:
`_split(999.96, 1)` returns mantissa `1000.0` with exponent `0` (the `>= 1000`
check runs before the final rounding), not the claimed `(1.0, 3)`. -/
theorem C3_boundary_eval : si_split ((99996 : ℚ)/100) 1 = (1000, 0) := by decide

/-- C4 counterexample: at `value = 999.96`, `precision = 1` the returned
mantissa is exactly `1000` and the exponent is `0`, not `3`: no
renormalization happens after rounding, refuting the claim as stated. -/
theorem C4_no_renorm_after_round :
    (si_split ((99996 : ℚ)/100) 1).1 = 1000 ∧ (si_split ((99996 : ℚ)/100) 1).2 ≠ 3 := by
  decide

/-- C4 (amended): the mantissa returned by `_split` is always the raw mantissa
rounded (half to even) to exactly `precision` fractional digits — an integer
multiple of `10 ^ (-precision)` within half an ulp of the raw mantissa — the
exponent is a multiple of 3 unchanged by the rounding, and the raw
decomposition is exact; but renormalization is only checked before rounding,
so a returned mantissa may equal 1000. -/
theorem C4_round_policy (value : ℚ) (precision : ℕ) :
    (si_split value precision).2 = (si_split_raw value).2
    ∧ (si_split_raw value).1 * (10 : ℚ) ^ (si_split_raw value).2 = value
    ∧ 3 ∣ (si_split value precision).2
    ∧ (∃ z : ℤ, (si_split value precision).1 = (z : ℚ) / 10 ^ precision)
    ∧ |(si_split value precision).1 - (si_split_raw value).1| ≤ 1 / (2 * 10 ^ precision) := by
  have he := si_split_eq value precision
  refine ⟨by rw [he], si_split_raw_mul value, ?_, ?_, ?_⟩
  · rw [he]
    exact si_split_raw_dvd value
  · rw [he]
    exact pyRound_den _ _
  · rw [he]
    exact pyRound_close _ _

/-- C5: the claim that bare numeric text parses to its standard float value
fails on the code: `"1.0e-27"` is valid float syntax (first conjunct, on the
model of the `float` builtin), yet `parse "1.0e-27"` raises `ValueError`,
because the prefix-substitution loop mangles the text before `float` sees
it. -/
theorem C5_parse_bare_broken :
    pyFloat "1.0e-27" = some ((1 : ℚ)/10^27) ∧ parse "1.0e-27" = none := by decide

/-- C6 counterexample: the legacy lookup in `src/si_prefix.py` does not raise
for exponent 4 — it floor-divides by 3 and returns `'k'`, refuting "raises
RangeError for every other integer". -/
theorem C6_legacy_quantizes : pfx_legacy 4 = some 'k' := by decide

/-- C6 (amended): the package lookup `_prefix` is an exact-match lookup,
succeeding exactly on the 17 multiples of 3 in `[-24, 24]` and raising for
every other integer, including 30 and 4; the legacy `prefix` of
`src/si_prefix.py` instead floor-divides the exponent by 3, so it returns a
symbol for every exponent in `[-24, 26]` (quantizing non-multiples of 3) and
raises only outside that range. -/
theorem C6_exact_lookup :
    (∀ e : ℤ, (pfx e).isSome ↔ 3 ∣ e ∧ -24 ≤ e ∧ e ≤ 24)
    ∧ (∀ e : ℤ, (pfx_legacy e).isSome ↔ -24 ≤ e ∧ e ≤ 26)
    ∧ pfx 30 = none ∧ pfx 4 = none ∧ pfx_legacy 30 = none := by
  refine ⟨pfx_isSome_iff, ?_, by decide, by decide, by decide⟩
  intro e
  have hl : (((SI_PFX_UNITS.length : ℤ)) - 1).fdiv 2 = 8 := by decide
  have hf : e.fdiv 3 = e / 3 := Int.fdiv_eq_ediv e (by norm_num)
  simp only [pfx_legacy, hl, hf]
  rcases lt_or_le (8 : ℤ) |e / 3| with h | h
  · rw [if_pos h]
    simp only [Option.isSome_none, Bool.false_eq_true, false_iff]
    intro hc
    rcases lt_abs.mp h with h' | h' <;> omega
  · rw [if_neg (not_lt.mpr h)]
    rw [abs_le] at h
    have hlt : (e / 3 + 8).toNat < 17 := by omega
    rcases ho : SI_PFX_UNITS.get? (e / 3 + 8).toNat with _ | c
    · rw [List.get?_eq_none] at ho
      have h17 : SI_PFX_UNITS.length = 17 := by decide
      omega
    · simp only [ho, Option.isSome_some, true_iff]
      omega

/-- C7: when the decomposed exponent lies outside `[-24, 24]`, `with_format`
(with the default templates) recovers from the lookup's `ValueError` and
returns the exponential rendering: the fixed-point mantissa text, `"e"`, and
the exponent with an explicit `+` for positive exponents and the natural `-`
for negative ones. -/
theorem C7_exp_fallback (value : ℚ) (precision : ℕ)
    (h : (si_split value precision).2 < -24 ∨ 24 < (si_split value precision).2) :
    with_format value precision DFLT_FMT DFLT_EXP_FMT =
      .ok (fixedStr (si_split value precision).1 precision ++ "e" ++
        ((if 0 < (si_split value precision).2 then "+" else "") ++
          intStr (si_split value precision).2)) := by
  have hp : pfx (si_split value precision).2 = none := pfx_eq_none _ h
  have hne : ¬ (si_split value precision).2 = 0 := by omega
  simp only [with_format, hp, if_neg hne]
  rw [renderTpl_exp]

/-- C7 witness: `format(1e-27, precision=1)`: the decomposed exponent `-27` is
out of range and the formatter returns `"1.0e-27"`. -/
theorem C7_exp_fallback_witness :
    ((si_split ((1 : ℚ)/10^27) 1).2 < -24 ∨ 24 < (si_split ((1 : ℚ)/10^27) 1).2)
    ∧ with_format ((1 : ℚ)/10^27) 1 DFLT_FMT DFLT_EXP_FMT = .ok "1.0e-27" := by
  have hh : (si_split ((1 : ℚ)/10^27) 1).2 < -24 ∨ 24 < (si_split ((1 : ℚ)/10^27) 1).2 :=
    Or.inl (by decide)
  refine ⟨hh, ?_⟩
  rw [C7_exp_fallback ((1 : ℚ)/10^27) 1 hh]
  decide

/-- C8: the claim that a zero decomposed exponent yields the bare value text
with no dangling separator fails on the code: the default template keeps its
literal space, so `with_format(3.93766, 2)` returns `"3.94 "` (trailing
space), while the claim and the function's own doctest say `"3.94"`. -/
theorem C8_zero_exp_eval :
    with_format ((393766 : ℚ)/100000) 2 DFLT_FMT DFLT_EXP_FMT = .ok "3.94 " := by decide

/-- C9: any `ValueError` raised while rendering the primary template — not
only the prefix-range failure — routes `with_format` to the fallback: when the
decomposed exponent is 0 it returns the bare value string (ignoring both
caller-supplied templates), otherwise it renders the exponential template;
the template error is never propagated. -/
theorem C9_valueerror_fallback (value : ℚ) (precision : ℕ)
    (format_str exp_format_str : List TplPart)
    (h : ∀ vs ps, renderTpl format_str vs ps none = .error .valueErr) :
    with_format value precision format_str exp_format_str =
      if (si_split value precision).2 = 0 then
        .ok (fixedStr (si_split value precision).1 precision)
      else
        renderTpl exp_format_str (fixedStr (si_split value precision).1 precision) none
          (some ((if 0 < (si_split value precision).2 then "+" else "") ++
            intStr (si_split value precision).2)) := by
  have ha : (match pfx (si_split value precision).2 with
      | none => Except.error PyErr.valueErr
      | some s =>
        renderTpl format_str (fixedStr (si_split value precision).1 precision)
          (some (pyStrip s)) none)
      = Except.error PyErr.valueErr := by
    cases pfx (si_split value precision).2 with
    | none => rfl
    | some s => exact h _ _
  simp only [with_format]
  rw [ha]

/-- C9 witness: with the primary template `"{value:d}"` (whose spec is invalid
for a string argument) and `value = 2`, `precision = 0` (decomposed exponent
0), `with_format` returns the bare `"2"`. -/
theorem C9_valueerror_fallback_witness :
    (∀ vs ps, renderTpl [TplPart.fldValue false] vs ps none = .error .valueErr)
    ∧ with_format 2 0 [TplPart.fldValue false] DFLT_EXP_FMT = .ok "2" := by
  have h : ∀ vs ps, renderTpl [TplPart.fldValue false] vs ps none = .error .valueErr :=
    fun vs ps => rfl
  refine ⟨h, ?_⟩
  rw [C9_valueerror_fallback 2 0 [TplPart.fldValue false] DFLT_EXP_FMT h]
  decide

/-- C10: `si_prefix_scale` returns the integer multiple `10 ^ exponent` for
exactly the nine unit characters with non-negative exponent, and raises
`TypeError` for each of the eight with negative exponent (whose Python
`10 ** exponent` is a float, rejected by the `isinstance(..., int)` guard). -/
theorem C10_scale_table :
    si_pfx_scale 'y' = .error .typeErr ∧ si_pfx_scale 'z' = .error .typeErr
    ∧ si_pfx_scale 'a' = .error .typeErr ∧ si_pfx_scale 'f' = .error .typeErr
    ∧ si_pfx_scale 'p' = .error .typeErr ∧ si_pfx_scale 'n' = .error .typeErr
    ∧ si_pfx_scale 'µ' = .error .typeErr ∧ si_pfx_scale 'm' = .error .typeErr
    ∧ si_pfx_scale ' ' = .ok 1 ∧ si_pfx_scale 'k' = .ok (10 ^ 3)
    ∧ si_pfx_scale 'M' = .ok (10 ^ 6) ∧ si_pfx_scale 'G' = .ok (10 ^ 9)
    ∧ si_pfx_scale 'T' = .ok (10 ^ 12) ∧ si_pfx_scale 'P' = .ok (10 ^ 15)
    ∧ si_pfx_scale 'E' = .ok (10 ^ 18) ∧ si_pfx_scale 'Z' = .ok (10 ^ 21)
    ∧ si_pfx_scale 'Y' = .ok (10 ^ 24) := by decide

end SiSpec
